import Mathlib

/-!
Verification of the query-result validation logic of the SQL tutorial page
(`src/main.py`).

The program's own logic is embedded shallowly:

* `df_column_uniquify` — the column de-duplication loop (main.py lines 42-53);
* `display_sql_results` — the query runner (main.py lines 66-81);
* `insert_df_into_sqlite` / `load_hr_data` — HR data loading (lines 94-101);
* `validate_sql_query` — the result validator (main.py lines 104-122).

External collaborators (the sqlite/pandas execution boundary and the CSV
reader) are abstracted as explicit function parameters.  The validator's
`pd.read_sql_query` boundary is `exec_query : String → Store → Except String
DataFrame`: a success yields a snapshot, a failure yields the diagnostic of
an exception that the validator's broad `except Exception` catches.  The
runner's cursor-level boundary is `ExecResult`, which distinguishes a raised
`sqlite3.Error`, a statement that produced no result set (where
`cursor.description` is `None`, so line 74 of the source raises an uncaught
`TypeError`), and a result set; `display_sql_results` accordingly returns
`Except String DisplayResult`, whose `error` case is a propagated exception.
The CSV reader is `readCsv : String → Except String DataFrame`, whose
failure the loader does not catch.

A pandas `DataFrame` produced by `read_sql_query` or `fetchall` always
carries a fresh 0-based range index, so a snapshot is modelled by its ordered
column names and its ordered rows; `reset_index(drop=True)` is then the
identity, and `DataFrame.equals` (which compares axes labels and values) is
structural equality.  Cell values are modelled by the integer and text
domains exercised by the tutorial's data.  `sort_values` keyed by the full
column list is fallible, as in pandas: it raises (here: returns `.error`)
when the column labels are not pairwise distinct (`ValueError`) or when a
key column mixes numbers with text, so that sorting must compare the two
kinds (`TypeError`); on clean data it is row-wise lexicographic sorting.
Ties under the full-column key are identical rows, so the choice of sorting
algorithm does not affect the result, and insertion sort is used.
-/

/-- A cell value of a table snapshot: an integer or a text value. -/
inductive SqlValue where
  | int (i : Int)
  | str (s : String)
deriving DecidableEq

/-- Python's `not s.strip()` test: the string is empty or consists only of
whitespace characters. -/
def isBlank (s : String) : Bool := s.data.all Char.isWhitespace

/-- Code-point lexicographic comparison of strings (the natural ordering
Python and pandas use on text values). -/
def charListLe : List Char → List Char → Bool
  | [], _ => true
  | _ :: _, [] => false
  | a :: as, b :: bs => if a = b then charListLe as bs else decide (a.toNat < b.toNat)

/-- Ascending comparison on cell values (natural per-type ordering; the two
kinds are never compared in the program's homogeneous columns, and are given
a fixed arbitrary relative order to keep the comparison total). -/
def SqlValue.leb : SqlValue → SqlValue → Bool
  | .int a, .int b => decide (a ≤ b)
  | .str a, .str b => charListLe a.data b.data
  | .int _, .str _ => true
  | .str _, .int _ => false

/-- Lexicographic ascending comparison of two rows, i.e. the ordering used by
`sort_values(by=<full column list>)`: earlier columns are compared first. -/
def rowLe : List SqlValue → List SqlValue → Bool
  | [], _ => true
  | _ :: _, [] => false
  | a :: as, b :: bs => if a = b then rowLe as bs else a.leb b

/-- Insert a row into a sorted list of rows, keeping it sorted. -/
def insertRow (r : List SqlValue) : List (List SqlValue) → List (List SqlValue)
  | [] => [r]
  | x :: xs => if rowLe r x then r :: x :: xs else x :: insertRow r xs

/-- Sort rows ascending by the row-lexicographic order (the effect of
`sort_values` keyed on the full column list). -/
def sortRows : List (List SqlValue) → List (List SqlValue)
  | [] => []
  | r :: rs => insertRow r (sortRows rs)

/-- Equality of modelled execution outcomes is decidable (used only to
evaluate concrete fixtures in witness checks). -/
instance instDecidableEqExcept {e a : Type} [DecidableEq e] [DecidableEq a] :
    DecidableEq (Except e a) := fun x y =>
  match x, y with
  | .error x1, .error y1 =>
    if h : x1 = y1 then .isTrue (congrArg Except.error h)
    else .isFalse (fun hc => h (Except.error.inj hc))
  | .ok x1, .ok y1 =>
    if h : x1 = y1 then .isTrue (congrArg Except.ok h)
    else .isFalse (fun hc => h (Except.ok.inj hc))
  | .error _, .ok _ => .isFalse (fun hc => Except.noConfusion hc)
  | .ok _, .error _ => .isFalse (fun hc => Except.noConfusion hc)

/-- A table snapshot: ordered column names and ordered rows, with the
implicit 0-based range index of a freshly built pandas frame. -/
structure DataFrame where
  columns : List String
  rows : List (List SqlValue)
deriving DecidableEq

/-- Whether a cell value is numeric (as opposed to text). -/
def SqlValue.isInt : SqlValue → Bool
  | .int _ => true
  | .str _ => false

/-- The values found at column position `j` across a list of rows. -/
def columnValues (rows : List (List SqlValue)) (j : Nat) : List SqlValue :=
  rows.filterMap (fun r => r[j]?)

/-- Whether some column of the frame holds both a number and a text value:
sorting such a column forces a comparison between the two kinds, which
pandas surfaces as a `TypeError`. -/
def hasMixedColumn (df : DataFrame) : Bool :=
  (List.range df.columns.length).any (fun j =>
    (columnValues df.rows j).any SqlValue.isInt &&
    (columnValues df.rows j).any (fun v => !(SqlValue.isInt v)))

/-- The rows of the frame sorted ascending by the full column list, as the
specification describes the order-independent comparison (it does not
mention the sort's failure modes). -/
def specSortedSnapshot (df : DataFrame) : DataFrame :=
  ⟨df.columns, sortRows df.rows⟩

/-- `df.sort_values(by=list(df.columns))` as the source executes it: pandas
raises a `ValueError` when the column labels used as sort keys are not
pairwise distinct, raises a `TypeError` when a key column mixes numbers
with text (a full sort of such a column must compare the two kinds), and
otherwise returns the frame with its rows sorted ascending by the full
column list, labels unchanged. -/
def DataFrame.sort_values (df : DataFrame) : Except String DataFrame :=
  if ¬ df.columns.Nodup then
    .error "ValueError: The column label is not unique"
  else if hasMixedColumn df then
    .error "TypeError: comparison not supported between instances of str and int"
  else
    .ok ⟨df.columns, sortRows df.rows⟩

/-- `df.reset_index(drop=True)`: renumber rows 0-based.  On this model the
rows are already positional, so this is the identity. -/
def DataFrame.reset_index (df : DataFrame) : DataFrame := df

/-- `a.equals(b)`: same column labels, same shape, same values at every
position (both frames carrying a canonical 0-based index). -/
def DataFrame.equals (a b : DataFrame) : Bool := decide (a = b)

/-- The candidate name the de-duplication loop tries at a given counter:
the original name for counter 0, and `"{item}_{counter}"` afterwards
(main.py lines 46-50). -/
def candidateName (item : String) (counter : Nat) : String :=
  if counter = 0 then item else item ++ "_" ++ Nat.repr counter

/-- The `while newitem in new_columns` search of `df_column_uniquify`:
starting from `counter`, advance the counter until the candidate name is not
among the already emitted names.  `fuel` bounds the search; the loop
invariantly receives enough fuel to find a free name (see
`searchName_not_mem`). -/
def searchName (item : String) (used : List String) : Nat → Nat → String
  | 0, counter => candidateName item counter
  | fuel + 1, counter =>
    if candidateName item counter ∈ used then searchName item used fuel (counter + 1)
    else candidateName item counter

/-- The loop body of `df_column_uniquify` over the incoming column names:
for each name, append the first free candidate to `new_columns`. -/
def uniquifyAux (new_columns : List String) : List String → List String
  | [] => new_columns
  | item :: rest =>
    uniquifyAux (new_columns ++ [searchName item new_columns (new_columns.length + 1) 0]) rest

/-- The de-duplicated column names computed by `df_column_uniquify`
(main.py lines 42-53). -/
def df_column_uniquify_names (df_columns : List String) : List String :=
  uniquifyAux [] df_columns

/-- `df_column_uniquify(df)`: replace the frame's column labels by their
de-duplicated versions. -/
def df_column_uniquify (df : DataFrame) : DataFrame :=
  ⟨df_column_uniquify_names df.columns, df.rows⟩

/-- What the query runner renders: an empty-query warning banner, an error
banner, or a success banner together with the displayed snapshot. -/
inductive DisplayResult where
  | warning (msg : String)
  | failure (msg : String)
  | success (df : DataFrame)
deriving DecidableEq

/-- Outcome of the runner's cursor-level execution
(`cursor.execute(sql)` + `fetchall()` + `description`, main.py lines
70-74): a raised `sqlite3.Error`; a statement that executed but produced no
result set, leaving `cursor.description = None` (e.g. `INSERT`, `CREATE`);
or a result set with its column descriptors and rows. -/
inductive ExecResult where
  | sqlErr (msg : String)
  | rowless
  | table (df : DataFrame)

/-- `display_sql_results(conn, sql)` (main.py lines 66-81): warn on an
empty/whitespace query without executing anything; otherwise execute the
query.  Only `sqlite3.Error` is caught: a result set is displayed with
de-duplicated column names, an engine error becomes an error banner
carrying the diagnostic, but a row-less statement leaves
`cursor.description = None` and the column-name comprehension at line 74
raises a `TypeError`, which is not a `sqlite3.Error` and propagates to the
caller (the `Except.error` case). -/
def display_sql_results {Store : Type} (exec_query : String → Store → ExecResult)
    (conn : Store) (sql : String) : Except String DisplayResult :=
  if isBlank sql then
    .ok (.warning "Please enter a SQL query to execute.")
  else
    match exec_query sql conn with
    | .table df => .ok (.success (df_column_uniquify df))
    | .rowless => .error "TypeError: NoneType object is not iterable"
    | .sqlErr e => .ok (.failure ("An error occurred: " ++ e))

/-- An in-memory sqlite database, viewed as its mapping from table names to
stored table snapshots. -/
def SqliteDb : Type := String → Option DataFrame

/-- `insert_df_into_sqlite(conn, df, table_name)` (main.py lines 94-95):
`df.to_sql(table_name, conn, if_exists='replace', index=False)` writes the
frame under the given name, replacing any existing table of that name. -/
def insert_df_into_sqlite (conn : SqliteDb) (df : DataFrame) (table_name : String) : SqliteDb :=
  fun n => if n = table_name then some df else conn n

/-- `load_df(table_name)` (main.py lines 84-85): read the flat file
`data/<table_name>.csv`; a missing or malformed file is a fatal error of the
external reader, which the caller does not catch. -/
def load_df (readCsv : String → Except String DataFrame) (table_name : String) :
    Except String DataFrame :=
  readCsv ("data/" ++ table_name ++ ".csv")

/-- `load_hr_data(conn)` (main.py lines 98-101): load `Employees`,
`Departments` and `Jobs` from their CSV files, in that order, writing each
into the store under its own name; a read failure propagates. -/
def load_hr_data (readCsv : String → Except String DataFrame) (conn : SqliteDb) :
    Except String SqliteDb :=
  (["Employees", "Departments", "Jobs"]).foldlM
    (fun c table_name => do
      let df ← load_df readCsv table_name
      pure (insert_df_into_sqlite c df table_name)) conn

/-- `validate_sql_query(conn, user_query, expected_query, ordered=True)`
(main.py lines 104-122), returning the boolean outcome paired with the error
banner reported via `st.error` when an exception is caught (`none` when no
error is reported).  The user query runs first; the broad
`except Exception` catches any failure of either execution *and* any
failure of the unordered branch's `sort_values` calls (the user frame is
sorted first, then the expected frame), turning each into
`(false, some msg)`. -/
def validate_sql_query {Store : Type} (exec_query : String → Store → Except String DataFrame)
    (conn : Store) (user_query : String) (expected_query : String)
    (ordered : Bool := true) : Bool × Option String :=
  if isBlank user_query || isBlank expected_query then (false, none)
  else
    match exec_query user_query conn with
    | .error e => (false, some ("Error executing queries: " ++ e))
    | .ok user_df =>
      match exec_query expected_query conn with
      | .error e => (false, some ("Error executing queries: " ++ e))
      | .ok expected_df =>
        if ordered then
          (user_df.equals expected_df, none)
        else
          match user_df.sort_values with
          | .error e => (false, some ("Error executing queries: " ++ e))
          | .ok user_sorted =>
            match expected_df.sort_values with
            | .error e => (false, some ("Error executing queries: " ++ e))
            | .ok expected_sorted =>
              ((user_sorted.reset_index).equals (expected_sorted.reset_index), none)

/-! ### Proof-side definitions and concrete fixtures -/

/-- The decimal digit characters of a number, most significant first: a
proof-side description of `Nat.toDigits 10` in terms of `Nat.digits`. -/
def natChars (n : Nat) : List Char := ((Nat.digits 10 n).map Nat.digitChar).reverse

/-- The renaming rule exactly as the specification sentence states it
(pure occurrence counting): the first occurrence of a name is kept and the
(k+1)-st occurrence becomes `name_k`, with no provision for collisions with
names already present.  This is the comparison point for the de-duplication
claim; the code's `df_column_uniquify` additionally skips candidates that
are already taken. -/
def specRenameAux (seen : List String) : List String → List String
  | [] => []
  | item :: rest => candidateName item (seen.count item) :: specRenameAux (seen ++ [item]) rest

/-- Occurrence-counting renaming of a whole column list, per the
specification's wording. -/
def specOccurrenceRename (cols : List String) : List String := specRenameAux [] cols

/-- Example snapshot standing for the engine's answer to
`SELECT * FROM Employees`. -/
def employeesDF : DataFrame :=
  ⟨["employee_id", "first_name"],
   [[SqlValue.int 1, SqlValue.str "Alice"], [SqlValue.int 2, SqlValue.str "Bob"]]⟩

/-- A concrete model engine for witness checks: it answers
`SELECT * FROM Employees` with `employeesDF` and fails on any other query
text with the engine's diagnostic for a missing table. -/
def employeesExec : String → Unit → Except String DataFrame := fun q _ =>
  if q = "SELECT * FROM Employees" then .ok employeesDF
  else .error "no such table: nonexistent_table"

/-- The descending-order learner query of the specification's example. -/
def usersDescQuery : String := "SELECT name, age FROM users ORDER BY age DESC"

/-- The ascending-order reference query of the specification's example. -/
def usersAscQuery : String := "SELECT name, age FROM users ORDER BY age ASC"

/-- Result of `usersDescQuery` on the table `users` with rows
`(Alice,30),(Bob,25)`: Alice (age 30) first. -/
def usersDescDF : DataFrame :=
  ⟨["name", "age"],
   [[SqlValue.str "Alice", SqlValue.int 30], [SqlValue.str "Bob", SqlValue.int 25]]⟩

/-- Result of `usersAscQuery` on the same table: Bob (age 25) first. -/
def usersAscDF : DataFrame :=
  ⟨["name", "age"],
   [[SqlValue.str "Bob", SqlValue.int 25], [SqlValue.str "Alice", SqlValue.int 30]]⟩

/-- A concrete model engine answering the two example queries on the seeded
`users` table of `initialize_sql_session_in_memory`. -/
def usersExec : String → Unit → Except String DataFrame := fun q _ =>
  if q = usersDescQuery then .ok usersDescDF
  else if q = usersAscQuery then .ok usersAscDF
  else .error "syntax error"

/-- Concrete stand-in for the contents of `data/Employees.csv`. -/
def employeesCsvDF : DataFrame :=
  ⟨["employee_id", "department"], [[SqlValue.int 1, SqlValue.str "Sales"]]⟩

/-- Concrete stand-in for the contents of `data/Departments.csv`. -/
def departmentsCsvDF : DataFrame := ⟨["department"], [[SqlValue.str "Sales"]]⟩

/-- Concrete stand-in for the contents of `data/Jobs.csv`. -/
def jobsCsvDF : DataFrame := ⟨["job"], [[SqlValue.str "Manager"]]⟩

/-- A concrete model CSV reader serving the three HR files. -/
def hrCsv : String → Except String DataFrame := fun path =>
  if path = "data/Employees.csv" then .ok employeesCsvDF
  else if path = "data/Departments.csv" then .ok departmentsCsvDF
  else if path = "data/Jobs.csv" then .ok jobsCsvDF
  else .error "FileNotFoundError"

/-- A CSV reader whose `Employees` file is missing. -/
def missingCsv : String → Except String DataFrame := fun _ =>
  .error "FileNotFoundError: data/Employees.csv"

/-- An empty in-memory database. -/
def hrEmptyDb : SqliteDb := fun _ => none

/-- Cursor-level counterpart of `employeesExec` for the query runner: a
result set for `SELECT * FROM Employees`, a `sqlite3.Error` otherwise. -/
def employeesTableExec : String → Unit → ExecResult := fun q _ =>
  if q = "SELECT * FROM Employees" then .table employeesDF
  else .sqlErr "no such table: nonexistent_table"

/-- Cursor-level engine on which every statement executes but produces no
result set, as sqlite behaves for `INSERT`/`CREATE`/`UPDATE` statements. -/
def rowlessStatementExec : String → Unit → ExecResult := fun _ _ => .rowless

/-- A snapshot with duplicate column labels, as a query such as
`SELECT id, id FROM users` returns. -/
def dupColumnsDF : DataFrame := ⟨["id", "id"], [[SqlValue.int 1, SqlValue.int 1]]⟩

/-- A model engine answering `SELECT id, id FROM users` with the
duplicate-labelled snapshot. -/
def dupColumnsExec : String → Unit → Except String DataFrame := fun q _ =>
  if q = "SELECT id, id FROM users" then .ok dupColumnsDF
  else .error "syntax error"

/-- The database produced by loading the three HR fixtures into an empty
store. -/
def hrLoadedDb : SqliteDb :=
  insert_df_into_sqlite
    (insert_df_into_sqlite
      (insert_df_into_sqlite hrEmptyDb employeesCsvDF "Employees")
      departmentsCsvDF "Departments")
    jobsCsvDF "Jobs"

/-! ### Injectivity of the decimal representation used by the suffix rule -/

theorem toDigitsCore_eq_natChars :
    ∀ (fuel n : Nat) (acc : List Char), n < 10 ^ fuel → n ≠ 0 →
      Nat.toDigitsCore 10 fuel n acc = natChars n ++ acc := by
  intro fuel
  induction fuel with
  | zero => intro n acc h hn; simp at h; omega
  | succ fuel ih =>
    intro n acc h hn
    have hn' : 0 < n := Nat.pos_of_ne_zero hn
    rw [Nat.toDigitsCore]
    by_cases hdiv : n / 10 = 0
    · have hlt : n < 10 := by omega
      simp only [hdiv, if_pos rfl]
      have : Nat.digits 10 n = [n] := Nat.digits_of_lt 10 n hn (by omega)
      have hmod : n % 10 = n := Nat.mod_eq_of_lt hlt
      simp [natChars, this, hmod]
    · simp only [hdiv, if_neg hdiv]
      have hdivlt : n / 10 < 10 ^ fuel := by
        have : n < 10 ^ fuel * 10 := by
          have := pow_succ 10 fuel
          omega
        omega
      rw [ih (n / 10) (Nat.digitChar (n % 10) :: acc) hdivlt hdiv]
      have hd : Nat.digits 10 n = (n % 10) :: Nat.digits 10 (n / 10) :=
        Nat.digits_def' (by norm_num) hn'
      simp [natChars, hd]

theorem repr_eq_natChars (n : Nat) (hn : n ≠ 0) : Nat.repr n = (natChars n).asString := by
  have hlt : n < 10 ^ (n + 1) := by
    calc n < 10 ^ n := Nat.lt_pow_self (by norm_num) n
    _ ≤ 10 ^ (n + 1) := Nat.pow_le_pow_right (by norm_num) (Nat.le_succ n)
  rw [Nat.repr, Nat.toDigits, toDigitsCore_eq_natChars (n + 1) n [] hlt hn]
  simp

theorem digitChar_inj_lt10 : ∀ a < 10, ∀ b < 10, Nat.digitChar a = Nat.digitChar b → a = b := by
  decide

theorem map_digitChar_inj :
    ∀ (l1 l2 : List Nat), (∀ x ∈ l1, x < 10) → (∀ x ∈ l2, x < 10) →
      l1.map Nat.digitChar = l2.map Nat.digitChar → l1 = l2 := by
  intro l1
  induction l1 with
  | nil => intro l2 _ _ h; cases l2 <;> simp_all
  | cons a as ih =>
    intro l2 h1 h2 h
    cases l2 with
    | nil => simp at h
    | cons b bs =>
      simp only [List.map_cons, List.cons.injEq] at h
      have ha : a < 10 := h1 a (by simp)
      have hb : b < 10 := h2 b (by simp)
      have hab : a = b := digitChar_inj_lt10 a ha b hb h.1
      have : as = bs := ih bs (fun x hx => h1 x (by simp [hx])) (fun x hx => h2 x (by simp [hx])) h.2
      simp [hab, this]

theorem asString_inj {l1 l2 : List Char} (h : l1.asString = l2.asString) : l1 = l2 := by
  have := congrArg String.data h
  simpa using this

theorem natChars_inj (m n : Nat) (h : natChars m = natChars n) : m = n := by
  unfold natChars at h
  have h' := List.reverse_injective h
  have hdig : Nat.digits 10 m = Nat.digits 10 n :=
    map_digitChar_inj _ _ (fun x hx => Nat.digits_lt_base (by norm_num) hx)
      (fun x hx => Nat.digits_lt_base (by norm_num) hx) h'
  exact Nat.digits_inj_iff.mp hdig

theorem repr_pos_ne_repr_zero (n : Nat) (hn : n ≠ 0) : Nat.repr n ≠ Nat.repr 0 := by
  intro h
  rw [repr_eq_natChars n hn] at h
  have h0 : Nat.repr 0 = List.asString ['0'] := rfl
  rw [h0] at h
  have hchars : natChars n = ['0'] := asString_inj h
  unfold natChars at hchars
  have hmap : (Nat.digits 10 n).map Nat.digitChar = ['0'] := by
    have := congrArg List.reverse hchars
    simpa using this
  have hdig : Nat.digits 10 n = [0] :=
    map_digitChar_inj _ [0] (fun x hx => Nat.digits_lt_base (by norm_num) hx)
      (by simp) (by rw [hmap]; rfl)
  have hof := Nat.ofDigits_digits 10 n
  rw [hdig] at hof
  simp [Nat.ofDigits] at hof
  omega

theorem natRepr_injective : Function.Injective Nat.repr := by
  intro m n h
  by_cases hm : m = 0 <;> by_cases hn : n = 0
  · omega
  · exact absurd h.symm (repr_pos_ne_repr_zero n hn ∘ (hm ▸ id))
  · exact absurd h (hn ▸ repr_pos_ne_repr_zero m hm)
  · rw [repr_eq_natChars m hm, repr_eq_natChars n hn] at h
    exact natChars_inj m n (asString_inj h)

theorem candidateName_injective (item : String) : Function.Injective (candidateName item) := by
  intro c1 c2 h
  unfold candidateName at h
  by_cases h1 : c1 = 0 <;> by_cases h2 : c2 = 0
  · omega
  · exfalso
    rw [if_pos h1, if_neg h2] at h
    have hlen := congrArg String.length h
    have hu : ("_").length = 1 := rfl
    simp [String.length_append] at hlen
    omega
  · exfalso
    rw [if_neg h1, if_pos h2] at h
    have hlen := congrArg String.length h
    have hu : ("_").length = 1 := rfl
    simp [String.length_append] at hlen
    omega
  · rw [if_neg h1, if_neg h2] at h
    have hdata := congrArg String.data h
    simp only [String.data_append, List.append_assoc] at hdata
    have hr : (Nat.repr c1).data = (Nat.repr c2).data :=
      List.append_cancel_left (List.append_cancel_left hdata)
    exact natRepr_injective (String.ext hr)

theorem exists_candidateName_notMem (item : String) (used : List String) :
    ∃ c, c ≤ used.length ∧ candidateName item c ∉ used := by
  by_contra hcon
  push_neg at hcon
  have hmaps : ∀ c ∈ Finset.range (used.length + 1), candidateName item c ∈ used.toFinset := by
    intro c hc
    rw [List.mem_toFinset]
    exact hcon c (Nat.lt_succ_iff.mp (Finset.mem_range.mp hc))
  have hcard : used.toFinset.card < (Finset.range (used.length + 1)).card := by
    have := used.toFinset_card_le
    rw [Finset.card_range]
    omega
  obtain ⟨a, _, b, _, hab, heq⟩ := Finset.exists_ne_map_eq_of_card_lt_of_maps_to hcard hmaps
  exact hab (candidateName_injective item heq)

theorem searchName_notMem_of_exists (item : String) (used : List String) :
    ∀ (fuel counter : Nat), (∃ k, k < fuel ∧ candidateName item (counter + k) ∉ used) →
      searchName item used fuel counter ∉ used := by
  intro fuel
  induction fuel with
  | zero =>
    intro counter h
    obtain ⟨k, hk, _⟩ := h
    omega
  | succ fuel ih =>
    intro counter h
    rw [searchName]
    by_cases hc : candidateName item counter ∈ used
    · rw [if_pos hc]
      apply ih
      obtain ⟨k, hk, hfree⟩ := h
      cases k with
      | zero => rw [Nat.add_zero] at hfree; exact absurd hc hfree
      | succ k =>
        refine ⟨k, by omega, ?_⟩
        have : counter + 1 + k = counter + (k + 1) := by omega
        rw [this]
        exact hfree
    · rw [if_neg hc]
      exact hc

theorem searchName_notMem (item : String) (used : List String) :
    searchName item used (used.length + 1) 0 ∉ used := by
  apply searchName_notMem_of_exists
  obtain ⟨c, hc, hfree⟩ := exists_candidateName_notMem item used
  exact ⟨c, by omega, by simpa using hfree⟩

theorem searchName_eq_of_least (item : String) (used : List String) :
    ∀ (m fuel counter : Nat), m < fuel →
      (∀ j, j < m → candidateName item (counter + j) ∈ used) →
      candidateName item (counter + m) ∉ used →
      searchName item used fuel counter = candidateName item (counter + m) := by
  intro m
  induction m with
  | zero =>
    intro fuel counter hf _ hfree
    cases fuel with
    | zero => omega
    | succ fuel =>
      simp only [Nat.add_zero] at hfree ⊢
      rw [searchName, if_neg hfree]
  | succ m ih =>
    intro fuel counter hf hmem hfree
    cases fuel with
    | zero => omega
    | succ fuel =>
      rw [searchName]
      have h0 : candidateName item counter ∈ used := by
        have := hmem 0 (by omega)
        rwa [Nat.add_zero] at this
      rw [if_pos h0]
      have harg : counter + 1 + m = counter + (m + 1) := by omega
      have := ih fuel (counter + 1) (by omega)
        (fun j hj => by
          have := hmem (j + 1) (by omega)
          have harg2 : counter + 1 + j = counter + (j + 1) := by omega
          rwa [harg2])
        (by rwa [harg])
      rw [this, harg]

theorem uniquifyAux_length : ∀ (cols acc : List String),
    (uniquifyAux acc cols).length = acc.length + cols.length := by
  intro cols
  induction cols with
  | nil => intro acc; simp [uniquifyAux]
  | cons item rest ih =>
    intro acc
    rw [uniquifyAux, ih]
    simp
    omega

theorem uniquifyAux_nodup : ∀ (cols acc : List String), acc.Nodup →
    (uniquifyAux acc cols).Nodup := by
  intro cols
  induction cols with
  | nil => intro acc h; exact h
  | cons item rest ih =>
    intro acc h
    rw [uniquifyAux]
    apply ih
    have hnew := searchName_notMem item acc
    simp [List.nodup_append, h, hnew]

theorem specRenameAux_append : ∀ (p r s : List String),
    specRenameAux s (p ++ r) = specRenameAux s p ++ specRenameAux (s ++ p) r := by
  intro p
  induction p with
  | nil => intro r s; simp [specRenameAux]
  | cons x p ih =>
    intro r s
    simp only [List.cons_append, specRenameAux, List.cons.injEq, true_and]
    rw [show p.append r = p ++ r from rfl, ih]
    simp [List.append_assoc]

theorem specRenameAux_length : ∀ (cols seen : List String),
    (specRenameAux seen cols).length = cols.length := by
  intro cols
  induction cols with
  | nil => intro seen; simp [specRenameAux]
  | cons x rest ih => intro seen; simp [specRenameAux, ih]

theorem candidateName_mem_specRenameAux (item : String) :
    ∀ (p seen : List String) (j : Nat), seen.count item ≤ j →
      j < seen.count item + p.count item →
      candidateName item j ∈ specRenameAux seen p := by
  intro p
  induction p with
  | nil =>
    intro seen j h1 h2
    simp at h2
    omega
  | cons x rest ih =>
    intro seen j h1 h2
    rw [specRenameAux]
    by_cases hx : x = item
    · subst hx
      by_cases hj : j = seen.count x
      · subst hj
        exact List.mem_cons_self _ _
      · apply List.mem_cons_of_mem
        apply ih (seen ++ [x]) j
        · rw [List.count_append]
          simp
          omega
        · rw [List.count_append]
          rw [List.count_cons] at h2
          simp at h2 ⊢
          omega
    · apply List.mem_cons_of_mem
      apply ih (seen ++ [x]) j
      · rw [List.count_append]
        simp [List.count_singleton', hx]
        omega
      · rw [List.count_append]
        rw [List.count_cons] at h2
        simp [List.count_singleton', hx] at h2 ⊢
        omega

theorem uniquifyAux_eq_specRenameAux :
    ∀ (rest p : List String),
      (specRenameAux [] p ++ specRenameAux p rest).Nodup →
      uniquifyAux (specRenameAux [] p) rest = specRenameAux [] p ++ specRenameAux p rest := by
  intro rest
  induction rest with
  | nil => intro p _; simp [uniquifyAux, specRenameAux]
  | cons item rest ih =>
    intro p h
    rw [uniquifyAux]
    have hlen : (specRenameAux [] p).length = p.length := specRenameAux_length p []
    have hsearch :
        searchName item (specRenameAux [] p) ((specRenameAux [] p).length + 1) 0 =
          candidateName item (p.count item) := by
      have hmem : ∀ j, j < p.count item → candidateName item (0 + j) ∈ specRenameAux [] p := by
        intro j hj
        simp only [Nat.zero_add]
        apply candidateName_mem_specRenameAux item p [] j
        · simp
        · simp
          omega
      have hfree : candidateName item (0 + p.count item) ∉ specRenameAux [] p := by
        simp only [Nat.zero_add]
        rw [specRenameAux] at h
        have hdisj := (List.nodup_append.mp h).2.2
        intro hcmem
        exact hdisj hcmem (List.mem_cons_self _ _)
      have := searchName_eq_of_least item (specRenameAux [] p) (p.count item)
        ((specRenameAux [] p).length + 1) 0
        (by rw [hlen]; exact Nat.lt_succ_of_le (List.count_le_length item p)) hmem hfree
      simpa using this
    rw [hsearch]
    have hstep : specRenameAux [] p ++ [candidateName item (p.count item)] =
        specRenameAux [] (p ++ [item]) := by
      rw [specRenameAux_append p [item] []]
      simp [specRenameAux]
    rw [hstep]
    have hrearr : specRenameAux [] (p ++ [item]) ++ specRenameAux (p ++ [item]) rest =
        specRenameAux [] p ++ specRenameAux p (item :: rest) := by
      rw [specRenameAux_append p [item] []]
      rw [specRenameAux]
      rw [specRenameAux]
      simp [specRenameAux, List.append_assoc]
    rw [ih (p ++ [item]) (by rw [hrearr]; exact h)]
    rw [hrearr]

/-! ### Small helpers about snapshot equality -/

theorem DataFrame.equals_eq_true_iff (a b : DataFrame) : a.equals b = true ↔ a = b := by
  simp [DataFrame.equals]

theorem DataFrame.equals_comm (a b : DataFrame) : a.equals b = b.equals a := by
  unfold DataFrame.equals
  exact decide_eq_decide.mpr eq_comm

theorem sort_values_ok {df us : DataFrame} (h : df.sort_values = Except.ok us) :
    us = specSortedSnapshot df := by
  unfold DataFrame.sort_values at h
  split_ifs at h
  · exact (Except.ok.inj h).symm

/-! ### Claim theorems -/

/-- Claim C1: with `ordered = true` the validator returns `true` iff the two
snapshots have the same column names in the same order, the same number of
rows, and identical values at every row position (row order counts); a
learner query identical to the reference query on the same unmodified store
validates as equivalent with `ordered = true`, and — when its snapshot sorts
cleanly, as `SELECT * FROM Employees` does (unique labels, homogeneous
columns) — for every value of `ordered`. -/
theorem ordered_validation_iff {Store : Type}
    (exec_query : String → Store → Except String DataFrame) (conn : Store)
    (q1 q2 : String) (u e : DataFrame)
    (h1 : isBlank q1 = false) (h2 : isBlank q2 = false)
    (hu : exec_query q1 conn = Except.ok u) (he : exec_query q2 conn = Except.ok e) :
    ((validate_sql_query exec_query conn q1 q2 true).1 = true ↔
      (u.columns = e.columns ∧ u.rows.length = e.rows.length ∧
        ∀ (i : Nat) (hi1 : i < u.rows.length) (hi2 : i < e.rows.length),
          u.rows[i] = e.rows[i])) ∧
    ((validate_sql_query exec_query conn q1 q1 true).1 = true) ∧
    (∀ us, u.sort_values = Except.ok us →
      ∀ ordered : Bool, (validate_sql_query exec_query conn q1 q1 ordered).1 = true) := by
  refine ⟨?_, ?_, ?_⟩
  · simp only [validate_sql_query, h1, h2, hu, he, Bool.or_self, Bool.false_eq_true,
      if_false, if_true, DataFrame.equals, decide_eq_true_eq]
    constructor
    · rintro rfl
      exact ⟨rfl, rfl, fun i hi1 hi2 => rfl⟩
    · rintro ⟨hc, hl, hv⟩
      have hr : u.rows = e.rows := List.ext_getElem hl hv
      cases u
      cases e
      cases hc
      cases hr
      rfl
  · simp [validate_sql_query, h1, hu, DataFrame.equals]
  · intro us hus ordered
    cases ordered
    · simp only [validate_sql_query, h1, hu, hus, Bool.or_self, Bool.false_eq_true,
        if_false]
      simp [DataFrame.equals, DataFrame.reset_index]
    · simp [validate_sql_query, h1, hu, DataFrame.equals]

/-- Concrete check of claim C1: the learner query `SELECT * FROM Employees`
against the identical reference query on the same store validates as
equivalent for both values of `ordered`. -/
theorem ordered_validation_iff_witness :
    (validate_sql_query employeesExec () "SELECT * FROM Employees"
        "SELECT * FROM Employees" true).1 = true ∧
    (validate_sql_query employeesExec () "SELECT * FROM Employees"
        "SELECT * FROM Employees" false).1 = true :=
  ⟨(ordered_validation_iff employeesExec () "SELECT * FROM Employees"
      "SELECT * FROM Employees" employeesDF employeesDF (by decide) (by decide)
      rfl rfl).2.1,
   (ordered_validation_iff employeesExec () "SELECT * FROM Employees"
      "SELECT * FROM Employees" employeesDF employeesDF (by decide) (by decide)
      rfl rfl).2.2 (specSortedSnapshot employeesDF) (by decide) false⟩

/-- Claim C2 fails as stated: with `ordered = false` the outcome is not
determined by the sorted snapshots alone.  A query whose result carries
duplicate column labels, such as `SELECT id, id FROM users`, makes
`sort_values(by=list(df.columns))` raise a `ValueError`; the validator's
`except Exception` catches it and returns `False` even though the two
(identical) snapshots trivially have identical sorted forms. -/
theorem unordered_validation_counterexample :
    (validate_sql_query dupColumnsExec () "SELECT id, id FROM users"
        "SELECT id, id FROM users" false).1 = false ∧
    specSortedSnapshot dupColumnsDF = specSortedSnapshot dupColumnsDF ∧
    dupColumnsDF.sort_values =
      Except.error "ValueError: The column label is not unique" := by
  decide

/-- Claim C2, amended: with `ordered = false` the validator returns `true`
iff both snapshots sort cleanly — pairwise-distinct column labels and no
column mixing numbers with text; otherwise `sort_values` raises, the
exception is caught, and the outcome is `false` — and the sorted,
index-reset snapshots are identical.  On the specification's `users`
example, the `ORDER BY age DESC` and `ORDER BY age ASC` queries compare as
equivalent exactly when `ordered = false`. -/
theorem unordered_validation_iff {Store : Type}
    (exec_query : String → Store → Except String DataFrame) (conn : Store)
    (q1 q2 : String) (u e : DataFrame)
    (h1 : isBlank q1 = false) (h2 : isBlank q2 = false)
    (hu : exec_query q1 conn = Except.ok u) (he : exec_query q2 conn = Except.ok e) :
    ((validate_sql_query exec_query conn q1 q2 false).1 = true ↔
      ((u.sort_values).isOk = true ∧ (e.sort_values).isOk = true ∧
        specSortedSnapshot u = specSortedSnapshot e)) ∧
    (validate_sql_query usersExec () usersDescQuery usersAscQuery false).1 = true ∧
    (validate_sql_query usersExec () usersDescQuery usersAscQuery true).1 = false := by
  refine ⟨?_, by decide, by decide⟩
  simp only [validate_sql_query, h1, h2, hu, he, Bool.or_self, Bool.false_eq_true,
    if_false]
  cases hsu : u.sort_values with
  | error e1 => simp [hsu, Except.isOk, Except.toBool]
  | ok us =>
    cases hse : e.sort_values with
    | error e2 => simp [hse, Except.isOk, Except.toBool]
    | ok es =>
      have h1 := sort_values_ok hsu
      have h2 := sort_values_ok hse
      subst h1
      subst h2
      simp [Except.isOk, Except.toBool, DataFrame.equals, DataFrame.reset_index]

/-- Concrete check of the amended claim C2 on the specification's example. -/
theorem unordered_validation_iff_witness :
    ((validate_sql_query usersExec () usersDescQuery usersAscQuery false).1 = true ↔
      ((usersDescDF.sort_values).isOk = true ∧ (usersAscDF.sort_values).isOk = true ∧
        specSortedSnapshot usersDescDF = specSortedSnapshot usersAscDF)) ∧
    (validate_sql_query usersExec () usersDescQuery usersAscQuery false).1 = true ∧
    (validate_sql_query usersExec () usersDescQuery usersAscQuery true).1 = false :=
  unordered_validation_iff usersExec () usersDescQuery usersAscQuery
    usersDescDF usersAscDF (by decide) (by decide) rfl rfl
/-- Claim C3 fails as stated: renaming is not pure occurrence counting.  On
the input `["x", "x", "x_1"]` the code yields `["x", "x_1", "x_1_1"]` — the
first (and only) occurrence of `"x_1"` is not left unchanged, and its name
is not a suffix numbered by its occurrence count — whereas the claim's
occurrence-counting rule yields `["x", "x_1", "x_1"]`. -/
theorem dedup_occurrence_counterexample :
    df_column_uniquify_names ["x", "x", "x_1"] = ["x", "x_1", "x_1_1"] ∧
    specOccurrenceRename ["x", "x", "x_1"] = ["x", "x_1", "x_1"] ∧
    df_column_uniquify_names ["x", "x", "x_1"] ≠ specOccurrenceRename ["x", "x", "x_1"] := by
  decide

/-- Claim C3, amended: whenever pure occurrence-counting renaming would
itself produce pairwise-distinct names (no candidate collides with an
already-emitted name), the code's de-duplication coincides with it — first
occurrences are kept and the k-th repetition of a name gets suffix `_k`; in
particular `["a","a","b","a"]` yields `["a","a_1","b","a_2"]`.  (When a
candidate does collide, the code instead increments the counter past it;
see the collision-handling theorem.) -/
theorem dedup_occurrence_amended (cols : List String)
    (h : (specOccurrenceRename cols).Nodup) :
    df_column_uniquify_names cols = specOccurrenceRename cols ∧
    df_column_uniquify_names ["a", "a", "b", "a"] = ["a", "a_1", "b", "a_2"] := by
  refine ⟨?_, by decide⟩
  have hmain := uniquifyAux_eq_specRenameAux cols []
  simp only [specRenameAux, List.nil_append] at hmain
  exact hmain (by simpa [specOccurrenceRename] using h)

/-- Concrete check of the amended claim C3 on the specification's example. -/
theorem dedup_occurrence_amended_witness :
    df_column_uniquify_names ["a", "a", "b", "a"] = specOccurrenceRename ["a", "a", "b", "a"] ∧
    df_column_uniquify_names ["a", "a", "b", "a"] = ["a", "a_1", "b", "a_2"] :=
  dedup_occurrence_amended ["a", "a", "b", "a"] (by decide)

/-- Claim C9: de-duplication always returns pairwise-distinct names, one per
input name; when a candidate suffixed name collides with a name already
emitted (as in `["x", "x_1", "x"]`), the counter keeps incrementing until an
unused name is found. -/
theorem dedup_names_nodup (cols : List String) :
    (df_column_uniquify_names cols).length = cols.length ∧
    (df_column_uniquify_names cols).Nodup ∧
    df_column_uniquify_names ["x", "x_1", "x"] = ["x", "x_1", "x_2"] := by
  refine ⟨?_, ?_, by decide⟩
  · have := uniquifyAux_length cols []
    simpa [df_column_uniquify_names] using this
  · exact uniquifyAux_nodup cols [] List.nodup_nil

/-- Claim C4: an empty or whitespace-only query string makes the query
runner report only a warning, without raising — for every engine, so no
execution can influence the outcome — and makes the validator return "not
equivalent" with no error reported, whichever side the blank string is on,
again for every engine. -/
theorem blank_query_short_circuit (Store : Type) (sql : String) (h : isBlank sql = true) :
    (∀ (exec_query : String → Store → ExecResult) (conn : Store),
      display_sql_results exec_query conn sql =
        Except.ok (DisplayResult.warning "Please enter a SQL query to execute.")) ∧
    (∀ (exec_query : String → Store → Except String DataFrame) (conn : Store)
        (q : String) (ordered : Bool),
      validate_sql_query exec_query conn sql q ordered = (false, none) ∧
      validate_sql_query exec_query conn q sql ordered = (false, none)) := by
  refine ⟨fun exec_query conn => ?_, fun exec_query conn q ordered => ⟨?_, ?_⟩⟩
  · simp [display_sql_results, h]
  · simp [validate_sql_query, h]
  · simp [validate_sql_query, h]

/-- Concrete check of claim C4 on a whitespace-only query. -/
theorem blank_query_short_circuit_witness :
    display_sql_results employeesTableExec () "   " =
      Except.ok (DisplayResult.warning "Please enter a SQL query to execute.") ∧
    validate_sql_query employeesExec () "   " "SELECT * FROM Employees" true =
      (false, none) :=
  ⟨(blank_query_short_circuit Unit "   " (by decide)).1 employeesTableExec (),
   ((blank_query_short_circuit Unit "   " (by decide)).2 employeesExec ()
      "SELECT * FROM Employees" true).1⟩

/-- Claim C5: if executing either query fails, the validator returns "not
equivalent", and (when neither input is blank, so that execution is
reached) it reports a non-fatal error message carrying the engine's
diagnostic; being a total function, it propagates no exception. -/
theorem failing_query_not_equivalent {Store : Type}
    (exec_query : String → Store → Except String DataFrame) (conn : Store)
    (q1 q2 : String) (ordered : Bool)
    (h : (exec_query q1 conn).isOk = false ∨ (exec_query q2 conn).isOk = false) :
    (validate_sql_query exec_query conn q1 q2 ordered).1 = false ∧
    (isBlank q1 = false → isBlank q2 = false →
      ∃ e, (exec_query q1 conn = Except.error e ∨ exec_query q2 conn = Except.error e) ∧
        (validate_sql_query exec_query conn q1 q2 ordered).2 =
          some ("Error executing queries: " ++ e)) := by
  constructor
  · by_cases hb1 : isBlank q1 = true
    · simp [validate_sql_query, hb1]
    · simp only [Bool.not_eq_true] at hb1
      by_cases hb2 : isBlank q2 = true
      · simp [validate_sql_query, hb1, hb2]
      · simp only [Bool.not_eq_true] at hb2
        cases hq1 : exec_query q1 conn with
        | error e => simp [validate_sql_query, hb1, hb2, hq1]
        | ok u =>
          cases hq2 : exec_query q2 conn with
          | error e => simp [validate_sql_query, hb1, hb2, hq1, hq2]
          | ok v =>
            rw [hq1, hq2] at h
            simp [Except.isOk, Except.toBool] at h
  · intro hb1 hb2
    cases hq1 : exec_query q1 conn with
    | error e =>
      exact ⟨e, Or.inl rfl, by simp [validate_sql_query, hb1, hb2, hq1]⟩
    | ok u =>
      cases hq2 : exec_query q2 conn with
      | error e =>
        exact ⟨e, Or.inr rfl, by simp [validate_sql_query, hb1, hb2, hq1, hq2]⟩
      | ok v =>
        rw [hq1, hq2] at h
        simp [Except.isOk, Except.toBool] at h

/-- Concrete check of claim C5: a reference query naming a nonexistent
table yields "not equivalent". -/
theorem failing_query_not_equivalent_witness :
    (validate_sql_query employeesExec () "SELECT * FROM Employees"
        "SELECT * FROM nonexistent_table" true).1 = false :=
  (failing_query_not_equivalent employeesExec () "SELECT * FROM Employees"
    "SELECT * FROM nonexistent_table" true (Or.inr (by decide))).1
/-- Claim C6 fails as stated: the runner does not always complete.  Only
`sqlite3.Error` is caught; a non-blank statement that produces no result
set (such as `CREATE TABLE t (x INTEGER)`) leaves `cursor.description =
None`, and iterating it at line 74 raises a `TypeError`, which is not a
`sqlite3.Error` and propagates to the caller. -/
theorem query_runner_crash_counterexample :
    display_sql_results rowlessStatementExec () "CREATE TABLE t (x INTEGER)" =
      Except.error "TypeError: NoneType object is not iterable" ∧
    isBlank "CREATE TABLE t (x INTEGER)" = false := by
  decide

/-- Claim C6, amended: the query runner completes without propagating an
exception on a blank query (warning banner), on a query that fails with an
engine (`sqlite3`) error (error banner carrying the engine's diagnostic
message), and on a query returning a result set (success banner with the
de-duplicated snapshot); but a non-blank statement producing no result set
leaves `cursor.description = None` and raises an uncaught `TypeError` that
propagates. -/
theorem query_runner_outcomes {Store : Type}
    (exec_query : String → Store → ExecResult) (conn : Store) (sql : String) :
    (isBlank sql = true →
      display_sql_results exec_query conn sql =
        Except.ok (DisplayResult.warning "Please enter a SQL query to execute.")) ∧
    (∀ e, isBlank sql = false → exec_query sql conn = ExecResult.sqlErr e →
      display_sql_results exec_query conn sql =
        Except.ok (DisplayResult.failure ("An error occurred: " ++ e))) ∧
    (∀ df, isBlank sql = false → exec_query sql conn = ExecResult.table df →
      display_sql_results exec_query conn sql =
        Except.ok (DisplayResult.success (df_column_uniquify df))) ∧
    (isBlank sql = false → exec_query sql conn = ExecResult.rowless →
      display_sql_results exec_query conn sql =
        Except.error "TypeError: NoneType object is not iterable") := by
  refine ⟨?_, ?_, ?_, ?_⟩
  · intro h
    simp [display_sql_results, h]
  · intro e hb hq
    simp [display_sql_results, hb, hq]
  · intro df hb hq
    simp [display_sql_results, hb, hq]
  · intro hb hq
    simp [display_sql_results, hb, hq]

/-- Concrete check of the amended claim C6: `SELECT * FROM
nonexistent_table` produces an error banner embedding the engine's message
without raising. -/
theorem query_runner_outcomes_witness :
    display_sql_results employeesTableExec () "SELECT * FROM nonexistent_table" =
      Except.ok (DisplayResult.failure
        ("An error occurred: " ++ "no such table: nonexistent_table")) :=
  (query_runner_outcomes employeesTableExec () "SELECT * FROM nonexistent_table").2.1
    "no such table: nonexistent_table" (by decide) rfl

/-- Claim C7: loading the HR dataset reads `data/Employees.csv`,
`data/Departments.csv` and `data/Jobs.csv`, writes each frame under its
table name (replacing an existing table), leaves every other table
untouched, stores each file's frame exactly (hence with its row count and
column names), and propagates a failure of any of the three reads. -/
theorem load_hr_data_spec (readCsv : String → Except String DataFrame) (conn : SqliteDb)
    (dfE dfD dfJ : DataFrame)
    (hE : readCsv "data/Employees.csv" = Except.ok dfE)
    (hD : readCsv "data/Departments.csv" = Except.ok dfD)
    (hJ : readCsv "data/Jobs.csv" = Except.ok dfJ) :
    load_hr_data readCsv conn =
      Except.ok (insert_df_into_sqlite (insert_df_into_sqlite
        (insert_df_into_sqlite conn dfE "Employees") dfD "Departments") dfJ "Jobs") ∧
    (∀ s, load_hr_data readCsv conn = Except.ok s →
      s "Employees" = some dfE ∧ s "Departments" = some dfD ∧ s "Jobs" = some dfJ ∧
      ∀ n, n ≠ "Employees" → n ≠ "Departments" → n ≠ "Jobs" → s n = conn n) ∧
    (∀ (r2 : String → Except String DataFrame) (e : String),
      r2 "data/Employees.csv" = Except.error e →
      load_hr_data r2 conn = Except.error e) ∧
    (∀ (r2 : String → Except String DataFrame) (e : String) (d1 : DataFrame),
      r2 "data/Employees.csv" = Except.ok d1 →
      r2 "data/Departments.csv" = Except.error e →
      load_hr_data r2 conn = Except.error e) ∧
    (∀ (r2 : String → Except String DataFrame) (e : String) (d1 d2 : DataFrame),
      r2 "data/Employees.csv" = Except.ok d1 →
      r2 "data/Departments.csv" = Except.ok d2 →
      r2 "data/Jobs.csv" = Except.error e →
      load_hr_data r2 conn = Except.error e) := by
  have hload : load_hr_data readCsv conn =
      Except.ok (insert_df_into_sqlite (insert_df_into_sqlite
        (insert_df_into_sqlite conn dfE "Employees") dfD "Departments") dfJ "Jobs") := by
    simp [load_hr_data, load_df, List.foldlM, hE, hD, hJ, Except.instMonad, Except.bind, Except.map, Bind.bind, Functor.map, pure, Except.pure]
  refine ⟨hload, ?_, ?_, ?_, ?_⟩
  · intro s hs
    rw [hload] at hs
    have hs' := Except.ok.inj hs
    subst hs'
    refine ⟨by simp [insert_df_into_sqlite], by simp [insert_df_into_sqlite],
      by simp [insert_df_into_sqlite], ?_⟩
    intro n hn1 hn2 hn3
    simp [insert_df_into_sqlite, hn1, hn2, hn3]
  · intro r2 e h2
    simp [load_hr_data, load_df, List.foldlM, Except.instMonad, Except.bind, Except.map, Bind.bind, Functor.map, pure, Except.pure, h2]
  · intro r2 e d1 h1 h2
    simp [load_hr_data, load_df, List.foldlM, Except.instMonad, Except.bind, Except.map, Bind.bind, Functor.map, pure, Except.pure, h1, h2]
  · intro r2 e d1 d2 h1 h2 h3
    simp [load_hr_data, load_df, List.foldlM, Except.instMonad, Except.bind, Except.map, Bind.bind, Functor.map, pure, Except.pure, h1, h2, h3]

/-- Concrete check of claim C7: the fixture reader loads the three HR
tables, other tables stay absent, and a missing `Employees` file is a
propagated fatal error. -/
theorem load_hr_data_spec_witness :
    load_hr_data hrCsv hrEmptyDb = Except.ok hrLoadedDb ∧
    hrLoadedDb "Employees" = some employeesCsvDF ∧
    hrLoadedDb "Departments" = some departmentsCsvDF ∧
    hrLoadedDb "Jobs" = some jobsCsvDF ∧
    hrLoadedDb "users" = none ∧
    load_hr_data missingCsv hrEmptyDb =
      Except.error "FileNotFoundError: data/Employees.csv" :=
  ⟨(load_hr_data_spec hrCsv hrEmptyDb employeesCsvDF departmentsCsvDF jobsCsvDF
      rfl rfl rfl).1,
   rfl, rfl, rfl, rfl,
   (load_hr_data_spec hrCsv hrEmptyDb employeesCsvDF departmentsCsvDF jobsCsvDF
      rfl rfl rfl).2.2.1 missingCsv "FileNotFoundError: data/Employees.csv" rfl⟩
/-- Claim C8: execution is a deterministic function of the query string and
the store contents (the store is immutable between the two runs, matching
the claim's no-intervening-mutation premise) — two runs of the runner on
the same query and store display the same snapshot, and the validator's two
reads of the same query string yield identical snapshots, so validating a
query against itself with `ordered = true` succeeds. -/
theorem query_execution_deterministic {Store : Type}
    (exec_query : String → Store → ExecResult) (conn : Store) (q : String)
    (df1 df2 : DataFrame)
    (h1 : display_sql_results exec_query conn q = Except.ok (DisplayResult.success df1))
    (h2 : display_sql_results exec_query conn q = Except.ok (DisplayResult.success df2)) :
    df1 = df2 ∧
    (∀ (exec2 : String → Store → Except String DataFrame) (u : DataFrame),
      isBlank q = false → exec2 q conn = Except.ok u →
      (validate_sql_query exec2 conn q q true).1 = true) := by
  constructor
  · exact DisplayResult.success.inj (Except.ok.inj (h1.symm.trans h2))
  · intro exec2 u hb hq
    simp [validate_sql_query, hb, hq, DataFrame.equals]

/-- Concrete check of claim C8 on the Employees fixture. -/
theorem query_execution_deterministic_witness :
    df_column_uniquify employeesDF = df_column_uniquify employeesDF ∧
    (validate_sql_query employeesExec () "SELECT * FROM Employees"
        "SELECT * FROM Employees" true).1 = true :=
  ⟨(query_execution_deterministic employeesTableExec () "SELECT * FROM Employees"
      (df_column_uniquify employeesDF) (df_column_uniquify employeesDF) rfl rfl).1,
   (query_execution_deterministic employeesTableExec () "SELECT * FROM Employees"
      (df_column_uniquify employeesDF) (df_column_uniquify employeesDF) rfl rfl).2
      employeesExec employeesDF (by decide) rfl⟩

/-- Claim C10: the validator's boolean outcome is symmetric in the learner
and reference queries, for every store, engine, pair of query strings and
ordered flag; in particular both orientations return `false` whenever a
read or a sort fails on either side. -/
theorem validate_symmetric {Store : Type}
    (exec_query : String → Store → Except String DataFrame) (conn : Store)
    (q1 q2 : String) (ordered : Bool) :
    (validate_sql_query exec_query conn q1 q2 ordered).1 =
      (validate_sql_query exec_query conn q2 q1 ordered).1 := by
  by_cases hb1 : isBlank q1 = true <;> by_cases hb2 : isBlank q2 = true
  · simp [validate_sql_query, hb1, hb2]
  · simp [validate_sql_query, hb1]
  · simp [validate_sql_query, hb1, hb2]
  · simp only [Bool.not_eq_true] at hb1 hb2
    simp only [validate_sql_query, hb1, hb2, Bool.or_self, Bool.false_eq_true, if_false]
    cases hq1 : exec_query q1 conn with
    | error e1 => cases hq2 : exec_query q2 conn <;> simp
    | ok u =>
      cases hq2 : exec_query q2 conn with
      | error e2 => simp
      | ok v =>
        cases ordered
        · cases hsu : u.sort_values <;> cases hsv : v.sort_values <;>
            simp [hsu, hsv, DataFrame.equals_comm]
        · simp [DataFrame.equals_comm]
